import Mathlib

/-!
Verification of the unified analytics MCP server
(`unified_analytics_server.py`, class `UnifiedAnalyticsMCPServer`).

Shallow embedding of the GSC and GA4 query builders, the report
composers, the tool/resource dispatcher and the lazy service
initialization.  Python dicts are modelled as association lists with
insertion-order semantics (an assignment to an existing key updates it in
place, an assignment to a fresh key appends), since the code relies on
key order only through JSON serialization and on overwrite semantics in
the GA4 row reshaping.  Upstream Google API responses are inputs to the
embedded functions: a GSC response is a list of rows carrying a `keys`
string list plus opaque metric fields, a GA4 response row is a pair of
positional dimension-value and metric-value lists.
-/

namespace UnifiedAnalytics

/-- Python dict assignment `d[k] = v`: update in place when the key is
present, append when fresh. -/
def dictInsert {α : Type} (d : List (String × α)) (k : String) (v : α) :
    List (String × α) :=
  if d.any (fun p => p.1 == k) then
    d.map (fun p => if p.1 == k then (k, v) else p)
  else d ++ [(k, v)]

/-- Python dict lookup `d.get(k)`: value at the key, `none` when absent. -/
def dget {α : Type} (d : List (String × α)) (k : String) : Option α :=
  (d.find? (fun p => p.1 == k)).map (fun p => p.2)

/-- Python `del d[k]`. -/
def ddelete {α : Type} (d : List (String × α)) (k : String) :
    List (String × α) :=
  d.filter (fun p => !(p.1 == k))

/-- The keys of a dict, in insertion order. -/
def dkeys {α : Type} (d : List (String × α)) : List String :=
  d.map (fun p => p.1)

/-- Python `s.split(sep)` for a single-character separator, recursing on
the character list (keeps empty segments, like Python's split). -/
def splitChars (sep : Char) : List Char → List String
  | [] => [""]
  | c :: cs =>
    let rest := splitChars sep cs
    if c = sep then "" :: rest
    else match rest with
      | [] => [String.mk [c]]
      | s :: ss => String.mk (c :: s.data) :: ss

/-- Python `uri.split('/')`. -/
def pySplit (s : String) (sep : Char) : List String :=
  splitChars sep s.data

/-- A row of a GSC search-analytics response: `keys` plus the remaining
fields (`clicks`, `impressions`, `ctr`, `position`), which the server
never inspects and which we keep opaque. -/
structure GSCRow where
  keys : List String
  payload : List (String × String)
deriving DecidableEq, Repr

/-- A row of a GA4 `runReport` response: the positional dimension values
paired with the positional metric values. -/
abbrev GA4RespRow := List String × List String

/-- Values stored in a result envelope (a Python dict serialized to JSON
by the dispatcher). -/
inductive EnvVal where
  | s : String → EnvVal
  | n : Nat → EnvVal
  | strList : List String → EnvVal
  | gscRows : List GSCRow → EnvVal
  | ga4Rows : List (List (String × String)) → EnvVal
  | ga4Row : List (String × String) → EnvVal
  | optGa4Row : Option (List (String × String)) → EnvVal
  | sub : List (String × EnvVal) → EnvVal

/-- An envelope: a Python dict from field name to value. -/
abbrev Env := List (String × EnvVal)

/-!
GA4 positional-to-named reshaping (`_ga4_run_report`, lines 429-441).
-/

/-- Mirrors `dimensions[i] if i < len(dimensions) else f"dimension_{i}"`. -/
def dimName (dimensions : List String) (i : Nat) : String :=
  if h : i < dimensions.length then dimensions.get ⟨i, h⟩
  else "dimension_" ++ toString i

/-- Mirrors `metrics[i] if i < len(metrics) else f"metric_{i}"`. -/
def metricName (metrics : List String) (i : Nat) : String :=
  if h : i < metrics.length then metrics.get ⟨i, h⟩
  else "metric_" ++ toString i

/-- The `row_data` dict built for one GA4 response row: enumerate the
dimension values, writing each under its zipped name, then the metric
values likewise (`for i, dim_value in enumerate(row.dimension_values)`
followed by the analogous metric loop). -/
def ga4RowData (dimensions metrics : List String)
    (dimValues metricValues : List String) : List (String × String) :=
  let afterDims := dimValues.enum.foldl
    (fun acc p => dictInsert acc (dimName dimensions p.1) p.2) []
  metricValues.enum.foldl
    (fun acc p => dictInsert acc (metricName metrics p.1) p.2) afterDims

/-!
Requests sent upstream.
-/

/-- The GSC query body: `dimensions` is omitted (not sent as empty) when
the caller's list is falsy, per
`if dimensions: request_body['dimensions'] = dimensions`. -/
structure GSCRequestBody where
  startDate : String
  endDate : String
  rowLimit : Nat
  dimensions : Option (List String)
deriving DecidableEq, Repr

def gscRequestBody (startDate endDate : String) (rowLimit : Nat)
    (dimensions : Option (List String)) : GSCRequestBody :=
  { startDate := startDate, endDate := endDate, rowLimit := rowLimit,
    dimensions :=
      match dimensions with
      | some ds => if ds.isEmpty then none else some ds
      | none => none }

/-- The GA4 `RunReportRequest` as constructed in `_ga4_run_report`. -/
structure GA4Request where
  property : String
  dimensions : List String
  metrics : List String
  dateRanges : List (String × String)
  limit : Nat
deriving DecidableEq, Repr

def ga4ReportRequest (dimensions metrics : List String)
    (startDate endDate propertyId : String) (limit : Nat) : GA4Request :=
  { property := "properties/" ++ propertyId,
    dimensions := dimensions, metrics := metrics,
    dateRanges := [(startDate, endDate)], limit := limit }

/-!
Query builders.
-/

/-- Python `dimensions or []` in the result envelope (Python `or`: an
empty and an absent list both give `[]`). -/
def dimsOrEmpty (dimensions : Option (List String)) : List String :=
  match dimensions with
  | some ds => if ds.isEmpty then [] else ds
  | none => []

/-- Result envelope of `_gsc_search_analytics` (lines 385-393), given the
upstream response's row list (`response.get('rows', [])`). -/
def gscSearchAnalytics (startDate endDate site siteUrl : String)
    (dimensions : Option (List String)) (rowLimit : Nat)
    (resp : List GSCRow) : Env :=
  [("source", .s "Google Search Console"),
   ("site", .s site),
   ("site_url", .s siteUrl),
   ("date_range", .s (startDate ++ " to " ++ endDate)),
   ("total_rows", .n resp.length),
   ("dimensions", .strList (dimsOrEmpty dimensions)),
   ("data", .gscRows resp)]

/-- Result envelope of `_ga4_run_report` (lines 443-452), given the
upstream response rows. -/
def ga4RunReport (dimensions metrics : List String)
    (startDate endDate site propertyId : String) (limit : Nat)
    (resp : List GA4RespRow) : Env :=
  let rows := resp.map (fun r => ga4RowData dimensions metrics r.1 r.2)
  [("source", .s "Google Analytics 4"),
   ("site", .s site),
   ("property_id", .s propertyId),
   ("date_range", .s (startDate ++ " to " ++ endDate)),
   ("dimensions", .strList dimensions),
   ("metrics", .strList metrics),
   ("row_count", .n rows.length),
   ("data", .ga4Rows rows)]

/-!
Report composers.
-/

/-- The fixed metric set of `_ga4_traffic_overview`. -/
def trafficOverviewMetrics : List String :=
  ["sessions", "totalUsers", "newUsers", "screenPageViews",
   "bounceRate", "averageSessionDuration", "sessionsPerUser"]

/-- The GA4 request `_ga4_traffic_overview` issues: empty dimensions, the
fixed 7-metric set, limit 1. -/
def ga4TrafficOverviewRequest (startDate endDate propertyId : String) :
    GA4Request :=
  ga4ReportRequest [] trafficOverviewMetrics startDate endDate propertyId 1

/-- Composer `_ga4_traffic_overview` (lines 456-471): run the report, and
when `result['data']` is non-empty set `result['overview']` to its first
row and delete `result['data']`. -/
def ga4TrafficOverview (startDate endDate site propertyId : String)
    (resp : List GA4RespRow) : Env :=
  let result := ga4RunReport [] trafficOverviewMetrics
    startDate endDate site propertyId 1 resp
  match dget result "data" with
  | some (.ga4Rows (r :: _)) =>
      ddelete (dictInsert result "overview" (.ga4Row r)) "data"
  | _ => result

/-- The metric list `_ga4_top_pages` requests for a sort metric. -/
def ga4TopPagesMetrics (metric : String) : List String :=
  [metric, "sessions", "totalUsers", "bounceRate"]

/-- Composer `_ga4_top_pages` (lines 473-480). -/
def ga4TopPages (startDate endDate site propertyId : String)
    (metric : String) (limit : Nat) (resp : List GA4RespRow) : Env :=
  ga4RunReport ["pagePath", "pageTitle"] (ga4TopPagesMetrics metric)
    startDate endDate site propertyId limit resp

/-- Composer `_ga4_acquisition_report` (lines 482-488). -/
def ga4AcquisitionReport (startDate endDate site propertyId : String)
    (limit : Nat) (resp : List GA4RespRow) : Env :=
  ga4RunReport ["sessionSource", "sessionMedium"]
    ["sessions", "totalUsers", "newUsers", "bounceRate",
     "averageSessionDuration"]
    startDate endDate site propertyId limit resp

/-- Python `d.get('data', [])` on a GSC envelope. -/
def getGscData (d : Env) : List GSCRow :=
  match dget d "data" with
  | some (.gscRows rs) => rs
  | _ => []

/-- Python `d.get('data', [])` on a GA4 envelope. -/
def getGa4Data (d : Env) : List (List (String × String)) :=
  match dget d "data" with
  | some (.ga4Rows rs) => rs
  | _ => []

/-- Python `d.get('overview', ...)` with an empty-dict default, on a
traffic-overview envelope. -/
def getOverview (d : Env) : List (String × String) :=
  match dget d "overview" with
  | some (.ga4Row r) => r
  | _ => []

/-- Composer `_combined_performance_report` (lines 491-525): four
underlying calls, then one composed envelope truncating GSC queries to
10, GA4 pages to 5 and GA4 sources to 5. -/
def combinedPerformanceReport
    (startDate endDate site siteUrl propertyId : String)
    (gscResp : List GSCRow)
    (overviewResp pagesResp acqResp : List GA4RespRow) : Env :=
  let gscData := gscSearchAnalytics startDate endDate site siteUrl
    (some ["query"]) 20 gscResp
  let ga4Overview := ga4TrafficOverview startDate endDate site propertyId
    overviewResp
  let ga4Pages := ga4TopPages startDate endDate site propertyId
    "screenPageViews" 10 pagesResp
  let ga4Acq := ga4AcquisitionReport startDate endDate site propertyId
    10 acqResp
  [("report_type", .s "Combined Performance Report"),
   ("site", .s site),
   ("date_range", .s (startDate ++ " to " ++ endDate)),
   ("search_console", .sub
     [("top_queries", .gscRows ((getGscData gscData).take 10))]),
   ("google_analytics", .sub
     [("overview", .ga4Row (getOverview ga4Overview)),
      ("top_pages", .ga4Rows ((getGa4Data ga4Pages).take 5)),
      ("top_sources", .ga4Rows ((getGa4Data ga4Acq).take 5))])]

/-- The GSC row filter of `_page_analysis`:
`len(row.get('keys', [])) > 0 and row.get('keys', [''])[0] == page_path`. -/
def gscPageMatches (pagePath : String) (rows : List GSCRow) :
    List GSCRow :=
  rows.filter (fun row =>
    match row.keys with
    | [] => false
    | k :: _ => k == pagePath)

/-- The GA4 row filter of `_page_analysis`:
`row.get('pagePath') == page_path` (an absent key gives `None`, which
never equals a string). -/
def ga4PageMatches (pagePath : String)
    (rows : List (List (String × String))) :
    List (List (String × String)) :=
  rows.filter (fun row => dget row "pagePath" == some pagePath)

/-- The metric list of the GA4 call inside `_page_analysis`. -/
def pageAnalysisGa4Metrics : List String :=
  ["screenPageViews", "sessions", "totalUsers", "bounceRate",
   "averageSessionDuration"]

/-- Composer `_page_analysis` (lines 527-573). -/
def pageAnalysis
    (pagePath startDate endDate site siteUrl propertyId : String)
    (gscResp : List GSCRow) (ga4Resp : List GA4RespRow) : Env :=
  let gscPageData := gscSearchAnalytics startDate endDate site siteUrl
    (some ["page", "query"]) 100 gscResp
  let pageQueries := gscPageMatches pagePath (getGscData gscPageData)
  let ga4PageData := ga4RunReport ["pagePath"] pageAnalysisGa4Metrics
    startDate endDate site propertyId 1000 ga4Resp
  let pageAnalytics := ga4PageMatches pagePath (getGa4Data ga4PageData)
  [("site", .s site),
   ("page_path", .s pagePath),
   ("date_range", .s (startDate ++ " to " ++ endDate)),
   ("search_console", .sub
     [("queries_count", .n pageQueries.length),
      ("top_queries", .gscRows (pageQueries.take 10))]),
   ("google_analytics", .sub
     [("page_data", .optGa4Row pageAnalytics.head?)])]

/-- Lookup inside a nested sub-envelope. -/
def envSub (d : Env) (outer inner : String) : Option EnvVal :=
  match dget d outer with
  | some (.sub d2) => dget d2 inner
  | _ => none

/-- Length of the row list stored at a nested sub-envelope field. -/
def envListLen (d : Env) (outer inner : String) : Nat :=
  match envSub d outer inner with
  | some (.gscRows l) => l.length
  | some (.ga4Rows l) => l.length
  | _ => 0

/-!
Dispatcher (`handle_call_tool`, lines 230-259, and
`handle_read_resource`, lines 282-325).

The seven composer bodies and JSON serialization are abstracted by an
oracle `run : String → Except String String` mapping a known tool name to
either the serialized result or the message of the exception it raised;
first-use service initialization is an `Except String Unit` input.  The
`await self._ensure_services_initialized()` call sits before the `try`
block, so its failure propagates out of the handler (outer `error`),
while everything raised inside the `try` is converted to a payload (the
handler returns in both the `try` and the `except` branch, hence the
total inner `match` under `ok`).
-/

structure TextContent where
  type : String
  text : String
deriving DecidableEq, Repr

/-- The fixed tool registry of the `if/elif` chain. -/
def toolNames : List String :=
  ["gsc_search_analytics", "gsc_top_queries", "ga4_traffic_overview",
   "ga4_top_pages", "ga4_acquisition_report",
   "combined_performance_report", "page_analysis"]

def handleCallTool (init : Except String Unit)
    (run : String → Except String String) (name : String) :
    Except String (List TextContent) :=
  match init with
  | .error e => .error e
  | .ok _ =>
    .ok (match (if name ∈ toolNames then run name
                else .error ("Unknown tool: " ++ name)) with
      | .ok json => [⟨"text", json⟩]
      | .error e => [⟨"text", "Error in " ++ name ++ ": " ++ e⟩])

/-- Outcome of a resource read: the serialized combined report, or the
serialized one-field `error` object built in the `except` branch. -/
inductive ResourceOutcome where
  | payload : String → ResourceOutcome
  | errorObj : String → ResourceOutcome
deriving DecidableEq, Repr

/-- Handler `handle_read_resource`: parse
`analytics://dashboard/<period>/<site>` by splitting on `/`, translate
the period to a date range (the four concrete dates are inputs, standing
for the `datetime.now()` arithmetic), and delegate to the combined
report, abstracted by the oracle `runCombined site startDate endDate`. -/
def handleReadResource (init : Except String Unit)
    (runCombined : String → String → String → Except String String)
    (today yesterday weekAgo monthAgo : String) (uri : String) :
    Except String ResourceOutcome :=
  match init with
  | .error e => .error e
  | .ok _ =>
    let parts := pySplit uri '/'
    let body : Except String String :=
      if parts.length < 5 then
        .error ("Invalid resource URI format: " ++ uri)
      else
        let period := parts.get! 3
        let site := parts.get! 4
        if period == "today" then runCombined site today today
        else if period == "yesterday" then
          runCombined site yesterday yesterday
        else if period == "week" then runCombined site weekAgo today
        else if period == "month" then runCombined site monthAgo today
        else .error ("Unknown period: " ++ period)
    .ok (match body with
      | .ok json => .payload json
      | .error e =>
        .errorObj ("Error reading resource " ++ uri ++ ": " ++ e))

/-!
Lazy service initialization (lines 327-357).
-/

/-- The two cached handles, `self.gsc_service` and `self.ga4_client`,
both `None` at construction. -/
structure ServerState where
  gscService : Option Nat
  ga4Client : Option Nat
deriving DecidableEq, Repr

/-- Method `_initialize_services`: load credentials, build the GSC
service, then build the GA4 client; each step may raise (oracles
`credLoad`, `mkGsc`, `mkGa4`).  A failure after the GSC service was
assigned leaves it assigned.  Returns the new state and the raised
message, if any. -/
def initServices (credLoad : Except String Nat)
    (mkGsc mkGa4 : Nat → Except String Nat) (st : ServerState) :
    ServerState × Option String :=
  match credLoad with
  | .error e => (st, some ("Failed to initialize services: " ++ e))
  | .ok cred =>
    match mkGsc cred with
    | .error e => (st, some ("Failed to initialize services: " ++ e))
    | .ok gsc =>
      let st1 := { st with gscService := some gsc }
      match mkGa4 cred with
      | .error e => (st1, some ("Failed to initialize services: " ++ e))
      | .ok ga4 => ({ st1 with ga4Client := some ga4 }, none)

/-- Method `_ensure_services_initialized`: call `_initialize_services`
only when `not self.gsc_service or not self.ga4_client`.  The boolean
records whether `_initialize_services` was invoked. -/
def ensureServices (credLoad : Except String Nat)
    (mkGsc mkGa4 : Nat → Except String Nat) (st : ServerState) :
    ServerState × Option String × Bool :=
  if st.gscService.isNone || st.ga4Client.isNone then
    let (st1, err) := initServices credLoad mkGsc mkGa4 st
    (st1, err, true)
  else (st, none, false)

/-- A sequence of `n` further `ensure` calls: final state and how many of
them invoked `_initialize_services`. -/
def ensureSeq (credLoad : Except String Nat)
    (mkGsc mkGa4 : Nat → Except String Nat) (st : ServerState) :
    Nat → ServerState × Nat
  | 0 => (st, 0)
  | n + 1 =>
    let (st1, _, b) := ensureServices credLoad mkGsc mkGa4 st
    let (st2, c) := ensureSeq credLoad mkGsc mkGa4 st1 n
    (st2, if b then c + 1 else c)

/-!
Helper lemmas about the dict model.
-/

theorem dictInsert_fresh {α : Type} {d : List (String × α)} {k : String}
    (v : α) (h : ∀ p ∈ d, p.1 ≠ k) :
    dictInsert d k v = d ++ [(k, v)] := by
  have hc : d.any (fun p => p.1 == k) = false := by
    simp only [List.any_eq_false, beq_iff_eq]
    exact h
  simp [dictInsert, hc]

theorem mem_dictInsert {α : Type} {d : List (String × α)} {k : String}
    {v : α} {q : String × α} (h : q ∈ dictInsert d k v) :
    q ∈ d ∨ q.1 = k := by
  unfold dictInsert at h
  split at h
  · rw [List.mem_map] at h
    obtain ⟨p, hp, hpq⟩ := h
    by_cases hpk : (p.1 == k) = true
    · right
      rw [if_pos hpk] at hpq
      rw [← hpq]
    · left
      rw [if_neg hpk] at hpq
      rw [← hpq]
      exact hp
  · rw [List.mem_append, List.mem_singleton] at h
    rcases h with h | h
    · exact Or.inl h
    · right
      rw [h]

theorem foldl_dictInsert_fresh {α : Type} (f : Nat → String) :
    ∀ (ps : List (Nat × α)) (acc : List (String × α)),
    (∀ p ∈ ps, ∀ q ∈ acc, q.1 ≠ f p.1) →
    (ps.map (fun p => f p.1)).Nodup →
    ps.foldl (fun a p => dictInsert a (f p.1) p.2) acc
      = acc ++ ps.map (fun p => (f p.1, p.2))
  | [], acc, _, _ => by simp
  | p :: ps, acc, hdisj, hnodup => by
    have hfresh : dictInsert acc (f p.1) p.2 = acc ++ [(f p.1, p.2)] :=
      dictInsert_fresh _ (fun q hq => hdisj p (List.mem_cons_self p ps) q hq)
    have hnd : ((p :: ps).map (fun p => f p.1)).Nodup := hnodup
    rw [List.map_cons, List.nodup_cons] at hnd
    have hrec := foldl_dictInsert_fresh f ps (acc ++ [(f p.1, p.2)])
      (by
        intro r hr q hq
        rcases List.mem_append.1 hq with hq | hq
        · exact hdisj r (List.mem_cons_of_mem p hr) q hq
        · rw [List.mem_singleton] at hq
          rw [hq]
          intro heq
          apply hnd.1
          have heq2 : f p.1 = f r.1 := heq
          rw [heq2]
          exact List.mem_map_of_mem (fun p => f p.1) hr)
      hnd.2
    simp only [List.foldl_cons, hfresh, hrec, List.map_cons,
      List.append_assoc, List.cons_append, List.nil_append]

theorem mem_foldl_dictInsert {α : Type} (f : Nat → String) :
    ∀ (ps : List (Nat × α)) (acc : List (String × α)) (q : String × α),
    q ∈ ps.foldl (fun a p => dictInsert a (f p.1) p.2) acc →
    q ∈ acc ∨ ∃ p ∈ ps, q.1 = f p.1
  | [], _, _, h => Or.inl h
  | p :: ps, acc, q, h => by
    rcases mem_foldl_dictInsert f ps (dictInsert acc (f p.1) p.2) q h with
      h1 | ⟨r, hr, hq⟩
    · rcases mem_dictInsert h1 with h2 | h2
      · exact Or.inl h2
      · exact Or.inr ⟨p, List.mem_cons_self p ps, h2⟩
    · exact Or.inr ⟨r, List.mem_cons_of_mem p hr, hq⟩

theorem enum_map_pairs {α : Type} (f : Nat → String) (l : List α) :
    l.enum.map (fun p => (f p.1, p.2))
      = ((List.range l.length).map f).zip l := by
  have h1 : ((List.range l.length).map f).zip (l.map id)
      = ((List.range l.length).zip l).map (Prod.map f id) :=
    List.zip_map f id (List.range l.length) l
  rw [List.map_id] at h1
  rw [h1, ← List.enum_eq_zip_range]
  apply List.map_congr_left
  intro a _
  cases a
  rfl

theorem enum_map_names {α : Type} (f : Nat → String) (l : List α) :
    l.enum.map (fun p => f p.1) = (List.range l.length).map f := by
  have : l.enum.map (fun p => f p.1)
      = (l.enum.map Prod.fst).map f := by
    rw [List.map_map]
    rfl
  rw [this, List.enum_map_fst]

theorem fst_mem_range_of_mem_enum {α : Type} {l : List α} {p : Nat × α}
    (h : p ∈ l.enum) : p.1 < l.length := by
  rw [List.enum_eq_zip_range] at h
  have h2 : (p.1, p.2) ∈ (List.range l.length).zip l := by simpa using h
  have h3 := List.of_mem_zip h2
  exact List.mem_range.1 h3.1

/-- Under pairwise-distinct attached names, the GA4 row is literally the
requested names zipped with the positional values, dimensions first. -/
theorem ga4RowData_eq_zip (dims mets dv mv : List String)
    (h : ((List.range dv.length).map (dimName dims)
          ++ (List.range mv.length).map (metricName mets)).Nodup) :
    ga4RowData dims mets dv mv
      = (((List.range dv.length).map (dimName dims)).zip dv)
        ++ (((List.range mv.length).map (metricName mets)).zip mv) := by
  rw [List.nodup_append] at h
  obtain ⟨hd, hm, hdisj⟩ := h
  unfold ga4RowData
  have h1 : dv.enum.foldl
      (fun acc p => dictInsert acc (dimName dims p.1) p.2) []
      = dv.enum.map (fun p => (dimName dims p.1, p.2)) := by
    rw [foldl_dictInsert_fresh (dimName dims) dv.enum []
      (by intro _ _ q hq; cases hq)
      (by rw [enum_map_names]; exact hd)]
    rfl
  rw [h1,
    foldl_dictInsert_fresh (metricName mets) mv.enum
      (dv.enum.map (fun p => (dimName dims p.1, p.2)))
      (by
        intro p hp q hq
        rw [List.mem_map] at hq
        obtain ⟨r, hr, hrq⟩ := hq
        rw [← hrq]
        intro heq
        have hxa : dimName dims r.1
            ∈ (List.range dv.length).map (dimName dims) :=
          List.mem_map_of_mem (dimName dims)
            (List.mem_range.2 (fst_mem_range_of_mem_enum hr))
        have heq2 : dimName dims r.1 = metricName mets p.1 := heq
        have hxb : dimName dims r.1
            ∈ (List.range mv.length).map (metricName mets) := by
          rw [heq2]
          exact List.mem_map_of_mem (metricName mets)
            (List.mem_range.2 (fst_mem_range_of_mem_enum hp))
        exact hdisj hxa hxb)
      (by rw [enum_map_names]; exact hm),
    enum_map_pairs, enum_map_pairs]

/-!
Claim theorems.
-/

/-- C1: `_ga4_run_report` re-attaches field names positionally: the i-th
dimension value is named `dimensions[i]` when `i` is below the requested
dimension count and `dimension_<i>` otherwise, likewise metric values
against `metrics[i]` or `metric_<i>`; every produced row arises this way
from its upstream row; under pairwise-distinct attached names the row is
exactly the names zipped with the positional values; the concrete example
(dimensions pagePath/pageTitle, metrics screenPageViews/sessions, values
/blog/a, Blog A, 42, 10) produces exactly the expected row; and when the
response arity does not exceed the request arity, every field name of the
produced row comes from the requested lists, i.e. synthetic fallback
names appear only when response arity exceeds request arity. -/
theorem ga4_run_report_positional_field_naming :
    (∀ (dims : List String) (i : Nat) (h : i < dims.length),
        dimName dims i = dims.get ⟨i, h⟩)
  ∧ (∀ (dims : List String) (i : Nat), dims.length ≤ i →
        dimName dims i = "dimension_" ++ toString i)
  ∧ (∀ (mets : List String) (i : Nat) (h : i < mets.length),
        metricName mets i = mets.get ⟨i, h⟩)
  ∧ (∀ (mets : List String) (i : Nat), mets.length ≤ i →
        metricName mets i = "metric_" ++ toString i)
  ∧ (∀ (dims mets : List String) (sd ed site pid : String) (lim : Nat)
        (resp : List GA4RespRow),
        dget (ga4RunReport dims mets sd ed site pid lim resp) "data"
          = some (.ga4Rows (resp.map fun r =>
              ga4RowData dims mets r.1 r.2)))
  ∧ (∀ dims mets dv mv,
        (((List.range dv.length).map (dimName dims))
          ++ ((List.range mv.length).map (metricName mets))).Nodup →
        ga4RowData dims mets dv mv
          = (((List.range dv.length).map (dimName dims)).zip dv)
            ++ (((List.range mv.length).map (metricName mets)).zip mv))
  ∧ ga4RowData ["pagePath", "pageTitle"] ["screenPageViews", "sessions"]
        ["/blog/a", "Blog A"] ["42", "10"]
      = [("pagePath", "/blog/a"), ("pageTitle", "Blog A"),
         ("screenPageViews", "42"), ("sessions", "10")]
  ∧ (∀ (dims mets dv mv : List String), dv.length ≤ dims.length →
        mv.length ≤ mets.length →
        ∀ q ∈ ga4RowData dims mets dv mv, q.1 ∈ dims ∨ q.1 ∈ mets) := by
  refine ⟨?_, ?_, ?_, ?_, ?_, ga4RowData_eq_zip, rfl, ?_⟩
  · intro dims i h
    simp only [dimName]
    rw [dif_pos h]
  · intro dims i h
    simp only [dimName]
    rw [dif_neg (Nat.not_lt.2 h)]
  · intro mets i h
    simp only [metricName]
    rw [dif_pos h]
  · intro mets i h
    simp only [metricName]
    rw [dif_neg (Nat.not_lt.2 h)]
  · intro dims mets sd ed site pid lim resp
    rfl
  · intro dims mets dv mv hd hm q hq
    simp only [ga4RowData] at hq
    rcases mem_foldl_dictInsert (metricName mets) mv.enum _ q hq with
      h1 | ⟨p, hp, hqe⟩
    · rcases mem_foldl_dictInsert (dimName dims) dv.enum [] q h1 with
        h2 | ⟨p, hp, hqe⟩
      · cases h2
      · left
        have hlt : p.1 < dims.length :=
          lt_of_lt_of_le (fst_mem_range_of_mem_enum hp) hd
        rw [hqe]
        simp only [dimName]
        rw [dif_pos hlt]
        exact List.get_mem dims p.1 hlt
    · right
      have hlt : p.1 < mets.length :=
        lt_of_lt_of_le (fst_mem_range_of_mem_enum hp) hm
      rw [hqe]
      simp only [metricName]
      rw [dif_pos hlt]
      exact List.get_mem mets p.1 hlt

/-- Witness for C1, instantiated at the spec's concrete example. -/
theorem ga4_run_report_positional_field_naming_witness :
    (0 < (["pagePath", "pageTitle"] : List String).length
      ∧ dimName ["pagePath", "pageTitle"] 0 = "pagePath")
  ∧ ((["pagePath"] : List String).length ≤ 1
      ∧ dimName ["pagePath"] 1 = "dimension_" ++ toString 1)
  ∧ (0 < (["screenPageViews", "sessions"] : List String).length
      ∧ metricName ["screenPageViews", "sessions"] 0 = "screenPageViews")
  ∧ ((["screenPageViews"] : List String).length ≤ 1
      ∧ metricName ["screenPageViews"] 1 = "metric_" ++ toString 1)
  ∧ ((((List.range 2).map (dimName ["pagePath", "pageTitle"]))
        ++ ((List.range 2).map
          (metricName ["screenPageViews", "sessions"]))).Nodup
      ∧ ga4RowData ["pagePath", "pageTitle"]
          ["screenPageViews", "sessions"] ["/blog/a", "Blog A"]
          ["42", "10"]
        = [("pagePath", "/blog/a"), ("pageTitle", "Blog A"),
           ("screenPageViews", "42"), ("sessions", "10")])
  ∧ (("pagePath", "/blog/a")
       ∈ ga4RowData ["pagePath", "pageTitle"]
          ["screenPageViews", "sessions"] ["/blog/a", "Blog A"]
          ["42", "10"]
      ∧ ("pagePath" ∈ (["pagePath", "pageTitle"] : List String)
         ∨ "pagePath" ∈ (["screenPageViews", "sessions"] : List String))) := by
  obtain ⟨h1, h2, h3, h4, _, h6, _, h8⟩ :=
    ga4_run_report_positional_field_naming
  refine ⟨⟨by decide, h1 _ 0 (by decide)⟩,
    ⟨by decide, h2 ["pagePath"] 1 (by decide)⟩,
    ⟨by decide, h3 _ 0 (by decide)⟩,
    ⟨by decide, h4 ["screenPageViews"] 1 (by decide)⟩,
    ⟨by decide, (h6 _ _ _ _ (by decide)).trans (by decide)⟩,
    ⟨by decide, h8 ["pagePath", "pageTitle"] ["screenPageViews", "sessions"]
      ["/blog/a", "Blog A"] ["42", "10"] (by decide) (by decide)
      ("pagePath", "/blog/a") (by decide)⟩⟩

/-- C9: with the duplicated metric list `_ga4_top_pages` requests for
`metric = "sessions"` (namely `[sessions, sessions, totalUsers,
bounceRate]`), the positional reshaping collapses the duplicate: the
produced row keeps a single `sessions` field holding the value from the
second metric position (the first value is overwritten), so the row has
five fields while the response carries six values. -/
theorem ga4_top_pages_duplicate_metric_collapses
    (sd ed site pid : String) (lim : Nat) (p t v0 v1 v2 v3 : String) :
    ga4TopPagesMetrics "sessions"
      = ["sessions", "sessions", "totalUsers", "bounceRate"]
  ∧ getGa4Data (ga4TopPages sd ed site pid "sessions" lim
        [([p, t], [v0, v1, v2, v3])])
      = [[("pagePath", p), ("pageTitle", t), ("sessions", v1),
          ("totalUsers", v2), ("bounceRate", v3)]]
  ∧ dget (ga4RowData ["pagePath", "pageTitle"]
        (ga4TopPagesMetrics "sessions") [p, t] [v0, v1, v2, v3])
        "sessions" = some v1
  ∧ (ga4RowData ["pagePath", "pageTitle"] (ga4TopPagesMetrics "sessions")
        [p, t] [v0, v1, v2, v3]).length
      = 5
  ∧ 5 < ([p, t] : List String).length
        + ([v0, v1, v2, v3] : List String).length :=
  ⟨rfl, rfl, rfl, rfl, Nat.le.refl⟩

/-- C4: `_ga4_traffic_overview` issues a GA4 report with zero dimensions,
the fixed 7-metric set and limit 1; when the upstream returns at least
one row, the first produced row is lifted into a flat `overview` field
and the `data` key is removed from the envelope; when the upstream
returns zero rows, the envelope has no `overview` key. -/
theorem traffic_overview_row_lifting :
    (∀ sd ed pid, ga4TrafficOverviewRequest sd ed pid
        = { property := "properties/" ++ pid, dimensions := [],
            metrics := trafficOverviewMetrics,
            dateRanges := [(sd, ed)], limit := 1 })
  ∧ trafficOverviewMetrics.length = 7
  ∧ (∀ (sd ed site pid : String) (r : GA4RespRow)
        (rest : List GA4RespRow),
        dget (ga4TrafficOverview sd ed site pid (r :: rest)) "overview"
          = some (.ga4Row (ga4RowData [] trafficOverviewMetrics r.1 r.2))
      ∧ dget (ga4TrafficOverview sd ed site pid (r :: rest)) "data"
          = none)
  ∧ (∀ sd ed site pid,
        dget (ga4TrafficOverview sd ed site pid []) "overview" = none) :=
  ⟨fun _ _ _ => rfl, rfl, fun _ _ _ _ _ _ => ⟨rfl, rfl⟩,
   fun _ _ _ _ => rfl⟩

/-- C10: when the upstream GA4 report behind `_ga4_traffic_overview`
returns zero rows, the returned envelope still contains the `data` key
bound to the empty row list; `data` is removed only when at least one row
was returned and lifted into `overview`. -/
theorem traffic_overview_zero_rows_keeps_data
    (sd ed site pid : String) :
    dget (ga4TrafficOverview sd ed site pid []) "data"
      = some (.ga4Rows [])
  ∧ "data" ∈ dkeys (ga4TrafficOverview sd ed site pid [])
  ∧ (∀ (r : GA4RespRow) (rest : List GA4RespRow),
      "data" ∉ dkeys (ga4TrafficOverview sd ed site pid (r :: rest))) :=
  ⟨rfl,
   show "data" ∈ (["source", "site", "property_id", "date_range",
      "dimensions", "metrics", "row_count", "data"] : List String)
     by decide,
   fun _ _ =>
     show "data" ∉ (["source", "site", "property_id", "date_range",
        "dimensions", "metrics", "row_count", "overview"] : List String)
       by decide⟩

/-- C3 counterexample: the GSC builder's envelope has neither a `metrics`
nor a `row_count` field (its row count is named `total_rows` and it adds
`site_url`), so the two builders do not return the claimed uniform
envelope with exactly the fields `source, site, date_range, dimensions,
metrics, row_count, data`. -/
theorem builders_envelopes_not_uniform :
    "metrics" ∉ dkeys (gscSearchAnalytics "2024-01-01" "2024-01-31"
        "vesivanov" "sc-domain:vesivanov.com" (some ["query"]) 20 [])
  ∧ "row_count" ∉ dkeys (gscSearchAnalytics "2024-01-01" "2024-01-31"
        "vesivanov" "sc-domain:vesivanov.com" (some ["query"]) 20 [])
  ∧ dkeys (gscSearchAnalytics "2024-01-01" "2024-01-31" "vesivanov"
        "sc-domain:vesivanov.com" (some ["query"]) 20 [])
      ≠ ["source", "site", "date_range", "dimensions", "metrics",
         "row_count", "data"]
  ∧ dkeys (gscSearchAnalytics "2024-01-01" "2024-01-31" "vesivanov"
        "sc-domain:vesivanov.com" (some ["query"]) 20 [])
      ≠ dkeys (ga4RunReport ["pagePath"] ["sessions"] "2024-01-01"
        "2024-01-31" "vesivanov" "487808497" 10 []) := by
  decide

/-- C3 (amended): each builder returns a fixed envelope, but the shapes
differ.  `_gsc_search_analytics` returns exactly the fields `source,
site, site_url, date_range, total_rows, dimensions, data` — no `metrics`
and no `row_count` field — with `total_rows` equal to the number of rows
in `data`; `_ga4_run_report` returns exactly `source, site, property_id,
date_range, dimensions, metrics, row_count, data` with `row_count` equal
to the number of rows in `data`. -/
theorem builder_envelope_shapes
    (sdG edG siteG su : String) (dimsG : Option (List String)) (rl : Nat)
    (gResp : List GSCRow) (dims mets : List String)
    (sd ed site pid : String) (lim : Nat) (aResp : List GA4RespRow) :
    dkeys (gscSearchAnalytics sdG edG siteG su dimsG rl gResp)
      = ["source", "site", "site_url", "date_range", "total_rows",
         "dimensions", "data"]
  ∧ dget (gscSearchAnalytics sdG edG siteG su dimsG rl gResp)
        "total_rows" = some (.n gResp.length)
  ∧ dget (gscSearchAnalytics sdG edG siteG su dimsG rl gResp) "data"
      = some (.gscRows gResp)
  ∧ dkeys (ga4RunReport dims mets sd ed site pid lim aResp)
      = ["source", "site", "property_id", "date_range", "dimensions",
         "metrics", "row_count", "data"]
  ∧ dget (ga4RunReport dims mets sd ed site pid lim aResp) "metrics"
      = some (.strList mets)
  ∧ dget (ga4RunReport dims mets sd ed site pid lim aResp) "row_count"
      = some (.n aResp.length) := by
  refine ⟨rfl, rfl, rfl, rfl, rfl, ?_⟩
  have h : dget (ga4RunReport dims mets sd ed site pid lim aResp)
      "row_count"
      = some (.n (aResp.map fun r => ga4RowData dims mets r.1 r.2).length) :=
    rfl
  rw [h, List.length_map]

/-- C5: `_page_analysis` queries GSC with dimensions `[page, query]` and
row limit 100 and GA4 with dimension `[pagePath]` and limit 1000; it
filters the GSC rows to those whose first `keys` entry equals `page_path`
exactly, reporting the total match count as `queries_count` and the first
10 matches as `top_queries`; it filters the GA4 rows to those whose
`pagePath` field equals `page_path` exactly, and `page_data` is the first
match when one exists and `None` otherwise, further matches being
discarded; on the spec's example rows, filtering for "/b" yields exactly
the second row and filtering for "/c" yields `None`. -/
theorem page_analysis_exact_filtering :
    (∀ sd ed, gscRequestBody sd ed 100 (some ["page", "query"])
        = { startDate := sd, endDate := ed, rowLimit := 100,
            dimensions := some ["page", "query"] })
  ∧ (∀ sd ed pid,
        ga4ReportRequest ["pagePath"] pageAnalysisGa4Metrics sd ed pid 1000
          = { property := "properties/" ++ pid,
              dimensions := ["pagePath"],
              metrics := pageAnalysisGa4Metrics,
              dateRanges := [(sd, ed)], limit := 1000 })
  ∧ (∀ (pp : String) (rows : List GSCRow) (row : GSCRow),
        row ∈ gscPageMatches pp rows
          ↔ row ∈ rows ∧ row.keys.head? = some pp)
  ∧ (∀ (pp : String) (rows : List (List (String × String)))
        (row : List (String × String)),
        row ∈ ga4PageMatches pp rows
          ↔ row ∈ rows ∧ dget row "pagePath" = some pp)
  ∧ (∀ (pp sd ed site su pid : String) (gscResp : List GSCRow)
        (ga4Resp : List GA4RespRow),
        envSub (pageAnalysis pp sd ed site su pid gscResp ga4Resp)
            "search_console" "queries_count"
          = some (.n (gscPageMatches pp gscResp).length)
      ∧ envSub (pageAnalysis pp sd ed site su pid gscResp ga4Resp)
            "search_console" "top_queries"
          = some (.gscRows ((gscPageMatches pp gscResp).take 10))
      ∧ envSub (pageAnalysis pp sd ed site su pid gscResp ga4Resp)
            "google_analytics" "page_data"
          = some (.optGa4Row (ga4PageMatches pp (ga4Resp.map fun r =>
              ga4RowData ["pagePath"] pageAnalysisGa4Metrics
                r.1 r.2)).head?))
  ∧ envSub (pageAnalysis "/b" "s" "e" "v" "u" "p" []
        [(["/a"], ["1", "2", "3", "4", "5"]),
         (["/b"], ["6", "7", "8", "9", "10"])])
        "google_analytics" "page_data"
      = some (.optGa4Row (some
          [("pagePath", "/b"), ("screenPageViews", "6"),
           ("sessions", "7"), ("totalUsers", "8"), ("bounceRate", "9"),
           ("averageSessionDuration", "10")]))
  ∧ envSub (pageAnalysis "/c" "s" "e" "v" "u" "p" []
        [(["/a"], ["1", "2", "3", "4", "5"]),
         (["/b"], ["6", "7", "8", "9", "10"])])
        "google_analytics" "page_data"
      = some (.optGa4Row none) := by
  refine ⟨fun _ _ => rfl, fun _ _ _ => rfl, ?_, ?_,
    fun _ _ _ _ _ _ _ _ => ⟨rfl, rfl, rfl⟩, rfl, rfl⟩
  · intro pp rows row
    have hpred : ((match row.keys with
        | [] => false
        | k :: _ => k == pp) = true) ↔ row.keys.head? = some pp := by
      cases row.keys with
      | nil => simp
      | cons k ks => simp
    rw [gscPageMatches, List.mem_filter, hpred]
  · intro pp rows row
    rw [ga4PageMatches, List.mem_filter]
    simp

/-- C6: `_combined_performance_report` calls GSC search analytics with
dimensions `[query]` and row limit 20, top pages and the acquisition
report with limit 10, and composes an envelope holding the first 10 GSC
query rows, the first 5 GA4 page rows and the first 5 GA4 source rows;
given 20 GSC rows, 10 page rows and 10 source rows it contains exactly
10 queries, 5 pages and 5 sources. -/
theorem combined_report_truncation :
    (∀ sd ed, gscRequestBody sd ed 20 (some ["query"])
        = { startDate := sd, endDate := ed, rowLimit := 20,
            dimensions := some ["query"] })
  ∧ (∀ (sd ed site su pid : String) (gscResp : List GSCRow)
        (ovResp pgResp aqResp : List GA4RespRow),
        envSub (combinedPerformanceReport sd ed site su pid gscResp
            ovResp pgResp aqResp) "search_console" "top_queries"
          = some (.gscRows (gscResp.take 10))
      ∧ envSub (combinedPerformanceReport sd ed site su pid gscResp
            ovResp pgResp aqResp) "google_analytics" "top_pages"
          = some (.ga4Rows ((pgResp.map fun r =>
              ga4RowData ["pagePath", "pageTitle"]
                (ga4TopPagesMetrics "screenPageViews") r.1 r.2).take 5))
      ∧ envSub (combinedPerformanceReport sd ed site su pid gscResp
            ovResp pgResp aqResp) "google_analytics" "top_sources"
          = some (.ga4Rows ((aqResp.map fun r =>
              ga4RowData ["sessionSource", "sessionMedium"]
                ["sessions", "totalUsers", "newUsers", "bounceRate",
                 "averageSessionDuration"] r.1 r.2).take 5)))
  ∧ (∀ (sd ed site su pid : String) (gscResp : List GSCRow)
        (ovResp pgResp aqResp : List GA4RespRow),
        envListLen (combinedPerformanceReport sd ed site su pid gscResp
            ovResp pgResp aqResp) "search_console" "top_queries"
          = min 10 gscResp.length
      ∧ envListLen (combinedPerformanceReport sd ed site su pid gscResp
            ovResp pgResp aqResp) "google_analytics" "top_pages"
          = min 5 pgResp.length
      ∧ envListLen (combinedPerformanceReport sd ed site su pid gscResp
            ovResp pgResp aqResp) "google_analytics" "top_sources"
          = min 5 aqResp.length)
  ∧ (envListLen (combinedPerformanceReport "s" "e" "v" "u" "p"
        (List.replicate 20 ⟨["q"], []⟩) []
        (List.replicate 10 (["p", "t"], ["1", "2", "3", "4"]))
        (List.replicate 10 (["src", "med"], ["1", "2", "3", "4", "5"])))
        "search_console" "top_queries" = 10
    ∧ envListLen (combinedPerformanceReport "s" "e" "v" "u" "p"
        (List.replicate 20 ⟨["q"], []⟩) []
        (List.replicate 10 (["p", "t"], ["1", "2", "3", "4"]))
        (List.replicate 10 (["src", "med"], ["1", "2", "3", "4", "5"])))
        "google_analytics" "top_pages" = 5
    ∧ envListLen (combinedPerformanceReport "s" "e" "v" "u" "p"
        (List.replicate 20 ⟨["q"], []⟩) []
        (List.replicate 10 (["p", "t"], ["1", "2", "3", "4"]))
        (List.replicate 10 (["src", "med"], ["1", "2", "3", "4", "5"])))
        "google_analytics" "top_sources" = 5) := by
  refine ⟨fun _ _ => rfl,
    fun _ _ _ _ _ _ _ _ _ => ⟨rfl, rfl, rfl⟩, ?_, rfl, rfl, rfl⟩
  intro sd ed site su pid gscResp ovResp pgResp aqResp
  refine ⟨?_, ?_, ?_⟩
  · show (gscResp.take 10).length = min 10 gscResp.length
    simp [List.length_take]
  · show ((pgResp.map fun r =>
        ga4RowData ["pagePath", "pageTitle"]
          (ga4TopPagesMetrics "screenPageViews") r.1 r.2).take 5).length
      = min 5 pgResp.length
    simp [List.length_take]
  · show ((aqResp.map fun r =>
        ga4RowData ["sessionSource", "sessionMedium"]
          ["sessions", "totalUsers", "newUsers", "bounceRate",
           "averageSessionDuration"] r.1 r.2).take 5).length
      = min 5 aqResp.length
    simp [List.length_take]

/-- C2 counterexample: a failure of the first-use service initialization
(which runs before the `try` block of both handlers) propagates out of
the handler instead of being converted into an error payload, falsifying
the claim that every error raised during handling, including
initialization errors, is caught at the Dispatcher boundary. -/
theorem dispatcher_init_error_escapes :
    handleCallTool
        (Except.error "Failed to initialize services: missing credentials")
        (fun _ => Except.ok "ok") "gsc_top_queries"
      = Except.error "Failed to initialize services: missing credentials"
  ∧ handleReadResource
        (Except.error "Failed to initialize services: missing credentials")
        (fun _ _ _ => Except.ok "ok") "2024-01-02" "2024-01-01"
        "2023-12-26" "2023-12-03" "analytics://dashboard/today/vesivanov"
      = Except.error "Failed to initialize services: missing credentials" :=
  ⟨rfl, rfl⟩

/-- C2 (amended): once the service handles are initialized, every error
raised inside the handler bodies — composer errors, unknown tools,
malformed resource URIs, unknown periods — is caught at the Dispatcher
boundary and converted to an error text payload (tools) or an error JSON
object (resources), so the handler always returns a value; but an error
raised by the first-use service initialization, which runs before the
`try` block, propagates out of both handlers uncaught. -/
theorem dispatcher_error_conversion :
    (∀ (run : String → Except String String) (name : String),
        ∃ ts, handleCallTool (Except.ok ()) run name = Except.ok ts)
  ∧ (∀ (run : String → Except String String) (name e : String),
        name ∈ toolNames → run name = Except.error e →
        handleCallTool (Except.ok ()) run name
          = Except.ok [⟨"text", "Error in " ++ name ++ ": " ++ e⟩])
  ∧ (∀ (rc : String → String → String → Except String String)
        (t y w m uri : String),
        ∃ out, handleReadResource (Except.ok ()) rc t y w m uri
          = Except.ok out)
  ∧ (∀ (rc : String → String → String → Except String String)
        (t y w m e : String),
        rc "vesivanov" t t = Except.error e →
        handleReadResource (Except.ok ()) rc t y w m
            "analytics://dashboard/today/vesivanov"
          = Except.ok (.errorObj
            ("Error reading resource analytics://dashboard/today/vesivanov: "
              ++ e)))
  ∧ (∀ (run : String → Except String String) (name e : String),
        handleCallTool (Except.error e) run name = Except.error e)
  ∧ (∀ (rc : String → String → String → Except String String)
        (t y w m uri e : String),
        handleReadResource (Except.error e) rc t y w m uri
          = Except.error e) := by
  refine ⟨fun run name => ⟨_, rfl⟩, ?_, fun rc t y w m uri => ⟨_, rfl⟩,
    ?_, fun _ _ _ => rfl, fun _ _ _ _ _ _ _ => rfl⟩
  · intro run name e hmem hrun
    show Except.ok (match (if name ∈ toolNames then run name
        else .error ("Unknown tool: " ++ name)) with
      | .ok json => ([⟨"text", json⟩] : List TextContent)
      | .error e2 => [⟨"text", "Error in " ++ name ++ ": " ++ e2⟩])
      = Except.ok
          [(⟨"text", "Error in " ++ name ++ ": " ++ e⟩ : TextContent)]
    rw [if_pos hmem, hrun]
  · intro rc t y w m e hrc
    show Except.ok (match rc "vesivanov" t t with
      | .ok json => ResourceOutcome.payload json
      | .error e2 => ResourceOutcome.errorObj
          ("Error reading resource analytics://dashboard/today/vesivanov: "
            ++ e2))
      = Except.ok (ResourceOutcome.errorObj
          ("Error reading resource analytics://dashboard/today/vesivanov: "
            ++ e))
    rw [hrc]

/-- Witness for C2 (amended), at a concrete failing composer. -/
theorem dispatcher_error_conversion_witness :
    ("ga4_top_pages" ∈ toolNames
      ∧ handleCallTool (Except.ok ())
          (fun _ => Except.error "GA4 API error: boom") "ga4_top_pages"
        = Except.ok [⟨"text", "Error in " ++ "ga4_top_pages" ++ ": "
            ++ "GA4 API error: boom"⟩])
  ∧ handleReadResource (Except.ok ())
        (fun _ _ _ => Except.error "GSC API error: boom") "2024-01-02"
        "2024-01-01" "2023-12-26" "2023-12-03"
        "analytics://dashboard/today/vesivanov"
      = Except.ok (.errorObj
          ("Error reading resource analytics://dashboard/today/vesivanov: "
            ++ "GSC API error: boom")) := by
  obtain ⟨-, h2, -, h4, -, -⟩ := dispatcher_error_conversion
  exact ⟨⟨by decide, h2 _ _ _ (by decide) rfl⟩, h4 _ _ _ _ _ _ rfl⟩

/-- C8: invoking any tool name outside the fixed seven-name registry
returns a text error payload whose content contains
`Unknown tool: <name>` (it is exactly `Error in <name>: Unknown tool:
<name>`) rather than throwing past the Dispatcher. -/
theorem unknown_tool_error_payload
    (run : String → Except String String) (name : String)
    (h : name ∉ toolNames) :
    handleCallTool (Except.ok ()) run name
      = Except.ok [⟨"text",
          "Error in " ++ name ++ ": " ++ ("Unknown tool: " ++ name)⟩]
  ∧ ∃ pre post,
      "Error in " ++ name ++ ": " ++ ("Unknown tool: " ++ name)
        = pre ++ ("Unknown tool: " ++ name) ++ post := by
  constructor
  · show Except.ok (match (if name ∈ toolNames then run name
        else .error ("Unknown tool: " ++ name)) with
      | .ok json => ([⟨"text", json⟩] : List TextContent)
      | .error e2 => [⟨"text", "Error in " ++ name ++ ": " ++ e2⟩])
      = Except.ok [(⟨"text", "Error in " ++ name ++ ": "
          ++ ("Unknown tool: " ++ name)⟩ : TextContent)]
    rw [if_neg h]
  · exact ⟨"Error in " ++ name ++ ": ", "", by rw [String.append_empty]⟩

/-- Witness for C8 at a concrete unknown tool name. -/
theorem unknown_tool_error_payload_witness :
    "bogus_tool" ∉ toolNames
  ∧ (handleCallTool (Except.ok ()) (fun _ => Except.ok "ok") "bogus_tool"
      = Except.ok [⟨"text", "Error in " ++ "bogus_tool" ++ ": "
          ++ ("Unknown tool: " ++ "bogus_tool")⟩]
    ∧ ∃ pre post, "Error in " ++ "bogus_tool" ++ ": "
          ++ ("Unknown tool: " ++ "bogus_tool")
        = pre ++ ("Unknown tool: " ++ "bogus_tool") ++ post) :=
  ⟨by decide, unknown_tool_error_payload (fun _ => Except.ok "ok")
    "bogus_tool" (by decide)⟩

/-- C7: after a first `_ensure_services_initialized` call that invoked
`_initialize_services` and succeeded, both handles are cached; every
subsequent call performs no further initialization (the invoked flag is
`false`, so no credential load or client construction happens) and leaves
the state unchanged, and over the first call followed by any number of
further calls, initialization happens exactly once. -/
theorem services_init_idempotent
    (credLoad : Except String Nat) (mkGsc mkGa4 : Nat → Except String Nat)
    (st0 st1 : ServerState)
    (h : ensureServices credLoad mkGsc mkGa4 st0 = (st1, none, true)) :
    ensureServices credLoad mkGsc mkGa4 st1 = (st1, none, false)
  ∧ (∀ n, ensureSeq credLoad mkGsc mkGa4 st1 n = (st1, 0))
  ∧ (∀ n, ensureSeq credLoad mkGsc mkGa4 st0 (n + 1) = (st1, 1))
  ∧ st1.gscService.isSome ∧ st1.ga4Client.isSome := by
  have hinit : initServices credLoad mkGsc mkGa4 st0 = (st1, none) := by
    unfold ensureServices at h
    split at h
    · rcases hI : initServices credLoad mkGsc mkGa4 st0 with ⟨sA, eA⟩
      rw [hI] at h
      simp only [Prod.mk.injEq] at h
      rw [h.1, h.2.1]
    · simp only [Prod.mk.injEq] at h
      exact absurd h.2.2 (by decide)
  have hboth : st1.gscService.isSome ∧ st1.ga4Client.isSome := by
    cases credLoad with
    | error e =>
      simp only [initServices] at hinit
      simp at hinit
    | ok cred =>
      cases hg : mkGsc cred with
      | error e =>
        simp only [initServices, hg] at hinit
        simp at hinit
      | ok g =>
        cases ha : mkGa4 cred with
        | error e =>
          simp only [initServices, hg, ha] at hinit
          simp at hinit
        | ok a =>
          simp only [initServices, hg, ha, Prod.mk.injEq] at hinit
          rw [← hinit.1]
          exact ⟨rfl, rfl⟩
  obtain ⟨g, hg1⟩ := Option.isSome_iff_exists.1 hboth.1
  obtain ⟨a, ha1⟩ := Option.isSome_iff_exists.1 hboth.2
  have hensure : ensureServices credLoad mkGsc mkGa4 st1
      = (st1, none, false) := by
    unfold ensureServices
    rw [hg1, ha1]
    rfl
  have hseq1 : ∀ n, ensureSeq credLoad mkGsc mkGa4 st1 n = (st1, 0) := by
    intro n
    induction n with
    | zero => rfl
    | succ k ih =>
      unfold ensureSeq
      simp [hensure, ih]
  have hseq0 : ∀ n,
      ensureSeq credLoad mkGsc mkGa4 st0 (n + 1) = (st1, 1) := by
    intro n
    unfold ensureSeq
    simp [h, hseq1 n]
  exact ⟨hensure, hseq1, hseq0, hboth.1, hboth.2⟩

/-- Witness for C7 with concrete construction oracles. -/
theorem services_init_idempotent_witness :
    ensureServices (Except.ok 7) (fun c => Except.ok (c + 1))
        (fun c => Except.ok (c + 2)) ⟨none, none⟩
      = (⟨some 8, some 9⟩, none, true)
  ∧ (ensureServices (Except.ok 7) (fun c => Except.ok (c + 1))
        (fun c => Except.ok (c + 2)) ⟨some 8, some 9⟩
      = (⟨some 8, some 9⟩, none, false)
    ∧ ensureSeq (Except.ok 7) (fun c => Except.ok (c + 1))
        (fun c => Except.ok (c + 2)) ⟨some 8, some 9⟩ 5
      = (⟨some 8, some 9⟩, 0)
    ∧ ensureSeq (Except.ok 7) (fun c => Except.ok (c + 1))
        (fun c => Except.ok (c + 2)) ⟨none, none⟩ 6
      = (⟨some 8, some 9⟩, 1)) := by
  have h := services_init_idempotent (Except.ok 7)
    (fun c => Except.ok (c + 1)) (fun c => Except.ok (c + 2))
    ⟨none, none⟩ ⟨some 8, some 9⟩ rfl
  exact ⟨rfl, h.1, h.2.1 5, h.2.2.1 6⟩

end UnifiedAnalytics
